import Mathlib

/-!
Shallow embedding of the typed API client and error-normalization pipeline
(`src/lib/api/errors.ts`, `src/lib/api/client.ts`, `src/lib/api/endpoints.ts`).

JavaScript runtime values are modelled by the inductive `Value`; TypeScript
types are erased at runtime, so fields declared with a narrow TS type (such as
`ApiErrorCode`) are modelled by the runtime-representable type (`String`).
Numbers are modelled by `Int` (the statuses and query scalars used by this
code are integral).
-/

/-- A JavaScript runtime value, as far as this client manipulates them:
`null`, `undefined`, booleans, numbers, strings, arrays and plain objects
(a list of fields in insertion order; keys are unique in objects built from
literals or `Object.entries`). -/
inductive Value where
  | null
  | undefined
  | bool (b : Bool)
  | num (n : Int)
  | str (s : String)
  | arr (xs : List Value)
  | obj (fields : List (String × Value))

/-- JavaScript `typeof` on a `Value` (`typeof null` is `"object"`). -/
def jsTypeof : Value → String
  | .null => "object"
  | .undefined => "undefined"
  | .bool _ => "boolean"
  | .num _ => "number"
  | .str _ => "string"
  | .arr _ => "object"
  | .obj _ => "object"

/-- JavaScript truthiness: `null`, `undefined`, `false`, `0` and `""` are
falsy; every object and array is truthy. -/
def truthy : Value → Bool
  | .null => false
  | .undefined => false
  | .bool b => b
  | .num n => n != 0
  | .str s => s ≠ ""
  | .arr _ => true
  | .obj _ => true

/-- Is this value nullish (`null` or `undefined`), the test performed by the
JavaScript `??` operator? -/
def nullish : Value → Bool
  | .null => true
  | .undefined => true
  | _ => false

/-- Property access `v.k` on a value already known to be an object
(a missing field reads as `undefined`; arrays have no named fields this
code reads). -/
def getProp (v : Value) (k : String) : Value :=
  match v with
  | .obj fs => (fs.lookup k).getD .undefined
  | _ => .undefined

/-- Is this value `null`? (the `errData !== null` test). -/
def isNullV : Value → Bool
  | .null => true
  | _ => false

/-- `isServerErrorShape` from `errors.ts`: the body is an object (and not
`null`), its `error` field is truthy and of type object, and that field's
`code` is a string. -/
def isServerErrorShape (errData : Value) : Bool :=
  if jsTypeof errData != "object" || isNullV errData then false
  else
    let err := getProp errData "error"
    truthy err && jsTypeof err == "object" && jsTypeof (getProp err "code") == "string"

/-- `mapHttpStatusToCode` from `errors.ts`. -/
def mapHttpStatusToCode (status : Int) : String :=
  if status = 400 then "VALIDATION_ERROR"
  else if status = 401 then "UNAUTHORIZED"
  else if status = 403 then "FORBIDDEN"
  else if status = 404 then "NOT_FOUND"
  else if status = 410 then "EXPIRED"
  else if status ≥ 500 then "SERVER_ERROR"
  else "UNKNOWN_ERROR"

/-- The runtime shape of an `ApiError` as produced by `toApiError`:
the TS field types `code : ApiErrorCode` and `message : string` are static
claims only, so `code` is a `String` and `message` a `Value` here. An absent
`status` field is `none`. -/
structure ApiError where
  code : String
  message : Value
  status : Option Int
  details : Value

/-- The nine members of the TS union `ApiErrorCode` (`errors.ts`). -/
def apiErrorCodes : List String :=
  ["UNAUTHORIZED", "FORBIDDEN", "NOT_FOUND", "PURCHASE_REQUIRED", "EXPIRED",
   "VALIDATION_ERROR", "SERVER_ERROR", "NETWORK_ERROR", "UNKNOWN_ERROR"]

/-- Membership in the closed `ApiErrorCode` enumeration. -/
def isApiErrorCode (s : String) : Bool := apiErrorCodes.contains s

/-- The `status ? mapHttpStatusToCode(status) : "UNKNOWN_ERROR"` expression:
`status` is truthy only when present and nonzero. -/
def statusFallbackCode (status : Option Int) : String :=
  match status with
  | some s => if s != 0 then mapHttpStatusToCode s else "UNKNOWN_ERROR"
  | none => "UNKNOWN_ERROR"

/-- `toApiError` from `errors.ts`. The input record is split into its three
optional fields; an absent `body` is JavaScript `undefined`.

In the structured-body branch, `body.error.code` is a string whenever the
guard holds, so the `code ?? …` nullish-coalescing never takes the right
side; the `_` case of the inner match (the coalescing fallback) is
unreachable there. `"UNKOWN_ERROR"` reproduces a typo in the source. -/
def toApiError (status : Option Int) (body : Value) (fallbackMessage : Option String) : ApiError :=
  if isServerErrorShape body then
    let codeV := getProp (getProp body "error") "code"
    let msgV := getProp (getProp body "error") "message"
    { code := match codeV with
        | .str s => s
        | _ => statusFallbackCode status
      message := if nullish msgV then Value.str (fallbackMessage.getD "UNKOWN_ERROR") else msgV
      status := status
      details := body }
  else
    match status with
    | some s =>
      { code := mapHttpStatusToCode s
        message := Value.str (fallbackMessage.getD "ERROR")
        status := some s
        details := body }
    | none =>
      { code := "NETWORK_ERROR"
        message := Value.str (fallbackMessage.getD "通信に失敗しました")
        status := none
        details := body }

example : (toApiError (some 403)
    (Value.obj [("error", Value.obj [("code", Value.str "PURCHASE_REQUIRED")])])
    none).code = "PURCHASE_REQUIRED" := by decide

example : (toApiError none (Value.str "boom") none).code = "NETWORK_ERROR" := by decide

example : (toApiError none
    (Value.obj [("error", Value.obj [("code", Value.str "UNAUTHORIZED")])])
    none).code = "UNAUTHORIZED" := by decide

example : (toApiError (some 418) Value.null none).code = "UNKNOWN_ERROR" := by decide

/-! ### Request Executor (`client.ts`) -/

/-- Does the second character list start with the first? -/
def leadMatch : List Char → List Char → Bool
  | [], _ => true
  | _ :: _, [] => false
  | x :: xs, y :: ys => x == y && leadMatch xs ys

/-- Does the character list contain `pat` as a contiguous sublist? -/
def subMatch (pat : List Char) : List Char → Bool
  | [] => leadMatch pat []
  | y :: ys => leadMatch pat (y :: ys) || subMatch pat ys

/-- JavaScript `hay.includes(pat)` on strings. -/
def strIncludes (hay pat : String) : Bool := subMatch pat.data hay.data

example : strIncludes "application/json; charset=utf-8" "application/json" = true := by decide
example : strIncludes "text/html" "application/json" = false := by decide

/-- The observable part of a `fetch` `Response` that `request` consumes:
its status, its `content-type` header (`none` when the header is absent),
and the outcomes of `res.json()` / `res.text()` (`none` when parsing or
reading the body fails). -/
structure Response where
  status : Int
  contentType : Option String
  jsonResult : Option Value
  textResult : Option String

/-- One transport call: `fetch` either throws a value or produces a
response. -/
inductive Transport where
  | throws (e : Value)
  | responds (r : Response)

/-- `res.ok`: the status is in the inclusive range 200–299. -/
def resOk (status : Int) : Bool := 200 ≤ status && status ≤ 299

/-- The body-decoding step of `request` (`client.ts` lines 74–95):
`body` starts as `null`; if the content-type (defaulted to `""` when the
header is absent) includes `"application/json"`, the JSON parse result is
used, a parse failure leaving `null`; otherwise the text read is used, a
read failure leaving `null`. -/
def decodeBody (r : Response) : Value :=
  let contentType := r.contentType.getD ""
  if strIncludes contentType "application/json" then
    match r.jsonResult with
    | some v => v
    | none => Value.null
  else
    match r.textResult with
    | some s => Value.str s
    | none => Value.null

/-- The fallback message `request` passes to `toApiError` when the transport
throws. -/
def networkFallbackMessage : String := "ネットワークエラーが発生しました。"

/-- The fallback message `request` passes to `toApiError` on a non-2xx
response. -/
def serverFallbackMessage : String := "サーバーエラーが発生しました。"

/-- `ApiClient.request` from `client.ts`, after the transport call is
abstracted into a `Transport` value: a throwing transport is classified with
no status and the thrown value as body; a response is decoded, then a
non-2xx status is classified with the status and the decoded body, and a
2xx status resolves with the decoded body. `get`, `post` and `delete` all
delegate to this function unchanged. -/
def request (t : Transport) : Except ApiError Value :=
  match t with
  | .throws e => .error (toApiError none e (some networkFallbackMessage))
  | .responds r =>
    let body := decodeBody r
    if !resOk r.status then
      .error (toApiError (some r.status) body (some serverFallbackMessage))
    else
      .ok body

/-- The code of the `ApiError` a call rejected with (`none` when the call
resolved). -/
def rejectCode : Except ApiError Value → Option String
  | .error e => some e.code
  | .ok _ => none

/-- The `status` field of the `ApiError` a call rejected with. -/
def rejectStatus : Except ApiError Value → Option (Option Int)
  | .error e => some e.status
  | .ok _ => none

/-- The URL built by `request`: the template literal `` `${BASE_URL}${path}` ``
stringifies an unset (`undefined`) `BASE_URL` as the literal text
`"undefined"` before concatenating the path. -/
def requestUrl (baseUrl : Option String) (path : String) : String :=
  (match baseUrl with
   | none => "undefined"
   | some s => s) ++ path

/-- The module-load check on `BASE_URL` (`client.ts` lines 5–10): it runs
`console.warn` exactly when `!BASE_URL` holds (the variable is unset or the
empty string) and has no failing path; the returned flag records whether the
warning was emitted, and the `Except` layer records that nothing is thrown. -/
def clientStartup (baseUrl : Option String) : Except ApiError Bool :=
  match baseUrl with
  | none => .ok true
  | some s => .ok (s = "")

example : rejectCode (request (Transport.throws (Value.str "TypeError: Failed to fetch")))
    = some "NETWORK_ERROR" := by decide
example : request (Transport.responds ⟨200, some "text/plain", none, none⟩)
    = Except.ok Value.null := by rfl
example : rejectCode (request (Transport.responds ⟨401, some "application/json",
    some (Value.obj [("error", Value.obj [("code", Value.str "UNAUTHORIZED")])]), none⟩))
    = some "UNAUTHORIZED" := by decide

/-! ### Query-string builder (`endpoints.ts`) -/

mutual
/-- JavaScript `String(v)` conversion for the values this code passes to it
(numbers are integral here; an array joins its elements with commas). -/
def jsToString : Value → String
  | .null => "null"
  | .undefined => "undefined"
  | .bool b => cond b "true" "false"
  | .num n => toString n
  | .str s => s
  | .obj _ => "[object Object]"
  | .arr xs => jsArrJoin xs

/-- `Array.prototype.join(",")` as used by `String(array)`: `null` and
`undefined` elements become the empty string. -/
def jsArrJoin : List Value → String
  | [] => ""
  | x :: xs =>
    (match x with
     | Value.null => ""
     | Value.undefined => ""
     | v => jsToString v)
    ++ (if xs.isEmpty then "" else ",") ++ jsArrJoin xs
end

example : jsToString (Value.arr [Value.num 1, Value.null, Value.str "x"]) = "1,,x" := by decide

/-- One hexadecimal digit, uppercase, for `n < 16`. -/
def hexDigit (n : Nat) : Char :=
  if n < 10 then Char.ofNat (48 + n) else Char.ofNat (55 + n)

/-- Percent-encode one byte as `%XX` with uppercase hex. -/
def encodeByte (b : Nat) : String :=
  "%" ++ String.mk [hexDigit (b / 16), hexDigit (b % 16)]

/-- The UTF-8 bytes of a character. -/
def utf8Bytes (c : Char) : List Nat :=
  let n := c.toNat
  if n < 0x80 then [n]
  else if n < 0x800 then [0xC0 + n / 64, 0x80 + n % 64]
  else if n < 0x10000 then [0xE0 + n / 4096, 0x80 + (n / 64) % 64, 0x80 + n % 64]
  else [0xF0 + n / 262144, 0x80 + (n / 4096) % 64, 0x80 + (n / 64) % 64, 0x80 + n % 64]

/-- Characters the `application/x-www-form-urlencoded` serializer leaves
as-is: alphanumerics and `*`, `-`, `.`, `_`. -/
def formSafe (c : Char) : Bool :=
  (('a' ≤ c && c ≤ 'z') || ('A' ≤ c && c ≤ 'Z') || ('0' ≤ c && c ≤ '9')
   || c == '*' || c == '-' || c == '.' || c == '_')

/-- `application/x-www-form-urlencoded` serialization of one character, as
`URLSearchParams.toString` performs it: a space becomes `+`, safe characters
stay, everything else is percent-encoded byte by byte. -/
def formUrlEncodeChar (c : Char) : String :=
  if c = ' ' then "+"
  else if formSafe c then String.singleton c
  else String.join ((utf8Bytes c).map encodeByte)

/-- `application/x-www-form-urlencoded` serialization of a string. -/
def formUrlEncode (s : String) : String :=
  String.join (s.data.map formUrlEncodeChar)

example : formUrlEncode "a b" = "a+b" := by decide
example : formUrlEncode "x&y" = "x%26y" := by decide

/-- `URLSearchParams.append(k, v)`: the pair goes to the end of the list. -/
def spAppend (sp : List (String × String)) (k v : String) : List (String × String) :=
  sp ++ [(k, v)]

/-- `URLSearchParams.set(k, v)`: if a pair with name `k` exists, the first
one gets the new value and the later ones are removed; otherwise the pair is
appended. -/
def spSet : List (String × String) → String → String → List (String × String)
  | [], k, v => [(k, v)]
  | (k0, v0) :: rest, k, v =>
    if k0 = k then (k, v) :: rest.filter (fun p => p.1 ≠ k)
    else (k0, v0) :: spSet rest k v

/-- Join serialized pairs with `&`. -/
def joinAmp : List String → String
  | [] => ""
  | [x] => x
  | x :: y :: xs => x ++ "&" ++ joinAmp (y :: xs)

/-- `URLSearchParams.toString()`: each pair serialized as
`encode(name)=encode(value)`, joined with `&`. -/
def spToString (sp : List (String × String)) : String :=
  joinAmp (sp.map (fun kv => formUrlEncode kv.1 ++ "=" ++ formUrlEncode kv.2))

/-- The per-field step of `buildQuery`'s loop: `undefined` and `null`
values are skipped, an array appends one pair per element with
`String(item)`, anything else is `sp.set(k, String(v))`. -/
def buildQueryStep (sp : List (String × String)) (k : String) (v : Value) : List (String × String) :=
  match v with
  | .undefined => sp
  | .null => sp
  | .arr xs => xs.foldl (fun acc item => spAppend acc k (jsToString item)) sp
  | v => spSet sp k (jsToString v)

/-- `buildQuery` from `endpoints.ts`: fold the fields (in `Object.entries`
order, so a list of key–value pairs with unique keys) into a
`URLSearchParams`, serialize, and put `?` in front exactly when the result
is nonempty. -/
def buildQuery (params : List (String × Value)) : String :=
  let sp := params.foldl (fun acc kv => buildQueryStep acc kv.1 kv.2) []
  let q := spToString sp
  if q = "" then "" else "?" ++ q

example : buildQuery [] = "" := by decide
example : buildQuery [("q", Value.str "a b"), ("tags", Value.arr [Value.str "x", Value.str "y"]),
    ("page", Value.undefined)] = "?q=a+b&tags=x&tags=y" := by decide

/-- Modelled from the spec: strict percent-encoding of a string, the
encoding named by the claim about query values ("the value percent-encoded"):
unreserved characters (alphanumerics and `- _ . ! ~ * ( )`) stay, every
other character — the space included — becomes `%XX` of its UTF-8 bytes. -/
def percentEncode (s : String) : String :=
  String.join (s.data.map (fun c =>
    if (('a' ≤ c && c ≤ 'z') || ('A' ≤ c && c ≤ 'Z') || ('0' ≤ c && c ≤ '9')
        || c == '-' || c == '_' || c == '.' || c == '!' || c == '~' || c == '*'
        || c == '(' || c == ')')
    then String.singleton c
    else String.join ((utf8Bytes c).map encodeByte)))

example : percentEncode "a b" = "a%20b" := by decide

/-- The pairs one field contributes to the query string, per the spec:
absent (`undefined`) and `null` values contribute nothing, an array
contributes one pair per element in array order, any other value exactly
one pair. -/
def expandParam (k : String) (v : Value) : List (String × String) :=
  match v with
  | .undefined => []
  | .null => []
  | .arr xs => xs.map (fun item => (k, jsToString item))
  | v => [(k, jsToString v)]

/-- All pairs a parameter map contributes, in field order. -/
def queryPairs (params : List (String × Value)) : List (String × String) :=
  params.flatMap (fun kv => expandParam kv.1 kv.2)

lemma expandParam_key {k : String} {v : Value} :
    ∀ p ∈ expandParam k v, p.1 = k := by
  intro p hp
  cases v <;> simp [expandParam] at hp <;> try simp [hp]
  · obtain ⟨x, _, hx⟩ := hp
    simp [← hx]

lemma spSet_of_fresh (sp : List (String × String)) (k v : String)
    (h : ∀ p ∈ sp, p.1 ≠ k) : spSet sp k v = sp ++ [(k, v)] := by
  induction sp with
  | nil => rfl
  | cons p rest ih =>
    have hp : p.1 ≠ k := h p (List.mem_cons_self p rest)
    cases p with
    | mk k0 v0 =>
      simp only [spSet]
      rw [if_neg hp]
      rw [ih (fun q hq => h q (List.mem_cons_of_mem _ hq))]
      simp

lemma foldl_spAppend (k : String) (xs : List Value) (sp : List (String × String)) :
    xs.foldl (fun acc item => spAppend acc k (jsToString item)) sp
      = sp ++ xs.map (fun item => (k, jsToString item)) := by
  induction xs generalizing sp with
  | nil => simp
  | cons x rest ih =>
    simp only [List.foldl_cons, List.map_cons]
    rw [ih]
    simp [spAppend]

lemma buildQueryStep_of_fresh (sp : List (String × String)) (k : String) (v : Value)
    (h : ∀ p ∈ sp, p.1 ≠ k) : buildQueryStep sp k v = sp ++ expandParam k v := by
  cases v <;> simp [buildQueryStep, expandParam, foldl_spAppend, spSet_of_fresh _ _ _ h]

lemma foldl_buildQueryStep (params : List (String × Value)) (sp : List (String × String))
    (hfresh : ∀ q ∈ params, ∀ p ∈ sp, p.1 ≠ q.1)
    (hnd : (params.map Prod.fst).Nodup) :
    params.foldl (fun acc kv => buildQueryStep acc kv.1 kv.2) sp = sp ++ queryPairs params := by
  induction params generalizing sp with
  | nil => simp [queryPairs]
  | cons q rest ih =>
    simp only [List.foldl_cons]
    rw [buildQueryStep_of_fresh sp q.1 q.2 (hfresh q (List.mem_cons_self q rest))]
    rw [List.map_cons, List.nodup_cons] at hnd
    rw [ih (sp ++ expandParam q.1 q.2) ?_ hnd.2]
    · simp [queryPairs, List.append_assoc]
    · intro q2 hq2 p hp
      rcases List.mem_append.mp hp with hsp | hexp
      · exact hfresh q2 (List.mem_cons_of_mem _ hq2) p hsp
      · rw [expandParam_key p hexp]
        intro hk
        exact hnd.1 (hk ▸ List.mem_map_of_mem Prod.fst hq2)

lemma joinAmp_cons_length (x : String) (xs : List String) :
    x.length ≤ (joinAmp (x :: xs)).length := by
  cases xs with
  | nil => simp [joinAmp]
  | cons y ys =>
    simp [joinAmp, String.length_append]
    omega

lemma spToString_cons_ne (p : String × String) (rest : List (String × String)) :
    spToString (p :: rest) ≠ "" := by
  intro h
  have hlen : (spToString (p :: rest)).length = 0 := by rw [h]; rfl
  have h1 : 0 < (formUrlEncode p.1 ++ "=" ++ formUrlEncode p.2).length := by
    have he : ("=").length = 1 := rfl
    rw [String.length_append, String.length_append]
    omega
  have h2 := joinAmp_cons_length (formUrlEncode p.1 ++ "=" ++ formUrlEncode p.2)
      (rest.map (fun kv => formUrlEncode kv.1 ++ "=" ++ formUrlEncode kv.2))
  simp only [spToString, List.map_cons] at hlen
  omega

/-! ### Helper lemmas about `toApiError` -/

/-- The status-only branch of `toApiError`, spelled out. -/
lemma toApiError_some_of_not_shape (s : Int) (body : Value) (fb : Option String)
    (h : isServerErrorShape body = false) :
    toApiError (some s) body fb =
      { code := mapHttpStatusToCode s
        message := Value.str (fb.getD "ERROR")
        status := some s
        details := body } := by
  unfold toApiError
  simp [h]

/-- The no-status branch of `toApiError`, spelled out. -/
lemma toApiError_none_of_not_shape (body : Value) (fb : Option String)
    (h : isServerErrorShape body = false) :
    toApiError none body fb =
      { code := "NETWORK_ERROR"
        message := Value.str (fb.getD "通信に失敗しました")
        status := none
        details := body } := by
  unfold toApiError
  simp [h]

/-- Every result of the status table lies in the closed enumeration. -/
lemma isApiErrorCode_map (s : Int) : isApiErrorCode (mapHttpStatusToCode s) = true := by
  unfold mapHttpStatusToCode
  repeat' split
  all_goals decide

/-- The extracted structured-body code: `body.error.code` when it is a
string, `none` otherwise. -/
def extractedCode (body : Value) : Option String :=
  match getProp (getProp body "error") "code" with
  | .str s => some s
  | _ => none

/-- When the guard holds and the extracted code is `c`, the structured
branch of `toApiError` returns exactly `c` as the code. -/
lemma toApiError_code_of_extracted (status : Option Int) (body : Value) (fb : Option String)
    (c : String) (h : isServerErrorShape body = true) (hc : extractedCode body = some c) :
    (toApiError status body fb).code = c := by
  unfold toApiError
  simp only [h, if_true]
  unfold extractedCode at hc
  cases hm : getProp (getProp body "error") "code" <;> rw [hm] at hc <;> simp_all

/-! ### Claims -/

/-- C1 (corrected). As stated, the claim fails: a body matching the
structured shape wins even when no status is supplied. Amended claim: when
no status is supplied and the body does not match the Structured Server
Error Body shape, the returned `ApiError` has code `NETWORK_ERROR` (and no
status); a structured body's code takes precedence even without a status. -/
theorem toApiError_noStatus_networkError (body : Value) (fb : Option String)
    (h : isServerErrorShape body = false) :
    (toApiError none body fb).code = "NETWORK_ERROR"
      ∧ (toApiError none body fb).status = none := by
  rw [toApiError_none_of_not_shape body fb h]
  exact ⟨rfl, rfl⟩

/-- Witness for C1's theorem: a plain string body (a typical transport
error) is classified as `NETWORK_ERROR`. -/
theorem toApiError_noStatus_networkError_witness :
    (toApiError none (Value.str "boom") none).code = "NETWORK_ERROR"
      ∧ (toApiError none (Value.str "boom") none).status = none :=
  toApiError_noStatus_networkError (Value.str "boom") none (by decide)

/-- Counterexample to C1 as stated: with no status and the structured body
`{ error: { code: "UNAUTHORIZED" } }`, `toApiError` returns code
`UNAUTHORIZED`, not `NETWORK_ERROR`. -/
theorem toApiError_noStatus_structured_cex :
    (toApiError none
      (Value.obj [("error", Value.obj [("code", Value.str "UNAUTHORIZED")])])
      none).code = "UNAUTHORIZED"
    ∧ "UNAUTHORIZED" ≠ "NETWORK_ERROR" := by decide

/-- C2 (corrected). As stated, the claim fails: a structured body's code
string is surfaced verbatim with no membership check, so codes outside the
nine-member enumeration reach callers. Amended claim: whenever the body does
not match the Structured Server Error Body shape, the returned code is one
of the nine members of the closed enumeration. -/
theorem toApiError_code_in_enum (status : Option Int) (body : Value) (fb : Option String)
    (h : isServerErrorShape body = false) :
    isApiErrorCode (toApiError status body fb).code = true := by
  cases status with
  | none => rw [toApiError_none_of_not_shape body fb h]; rfl
  | some s => rw [toApiError_some_of_not_shape s body fb h]; exact isApiErrorCode_map s

/-- Witness for C2's theorem at status 418 and a text body. -/
theorem toApiError_code_in_enum_witness :
    isApiErrorCode (toApiError (some 418) (Value.str "teapot") none).code = true :=
  toApiError_code_in_enum (some 418) (Value.str "teapot") none (by decide)

/-- Counterexample to C2 as stated: the structured body
`{ error: { code: "TEAPOT" } }` yields the code `TEAPOT`, which is outside
the closed enumeration. -/
theorem toApiError_code_outside_enum_cex :
    (toApiError (some 500)
      (Value.obj [("error", Value.obj [("code", Value.str "TEAPOT")])])
      none).code = "TEAPOT"
    ∧ isApiErrorCode "TEAPOT" = false := by decide

/-- C3 (corrected). As stated, the claim fails: the source tests the
extracted code with `??`, which only falls through on `null`/`undefined`,
and the type guard already forces the code to be a string, so the fallback
to the status mapping never fires — an empty-string code is returned as-is.
Amended claim: whenever the body matches the Structured Server Error Body
shape, the returned code is exactly the extracted code string, the empty
string included. -/
theorem toApiError_structured_code_verbatim (status : Option Int) (body : Value)
    (fb : Option String) (c : String)
    (h : isServerErrorShape body = true) (hc : extractedCode body = some c) :
    (toApiError status body fb).code = c :=
  toApiError_code_of_extracted status body fb c h hc

/-- Witness for C3's theorem: `{ error: { code: "EXPIRED" } }` with
status 500 yields code `EXPIRED`. -/
theorem toApiError_structured_code_verbatim_witness :
    (toApiError (some 500)
      (Value.obj [("error", Value.obj [("code", Value.str "EXPIRED")])])
      none).code = "EXPIRED" :=
  toApiError_structured_code_verbatim (some 500)
    (Value.obj [("error", Value.obj [("code", Value.str "EXPIRED")])])
    none "EXPIRED" (by decide) (by decide)

/-- Counterexample to C3 as stated: with the structured body
`{ error: { code: "" } }` and status 400 the returned code is the empty
string, not the status-derived `VALIDATION_ERROR`. -/
theorem toApiError_empty_code_cex :
    (toApiError (some 400)
      (Value.obj [("error", Value.obj [("code", Value.str "")])])
      none).code = ""
    ∧ "" ≠ "VALIDATION_ERROR" := by decide

/-- C4 (corrected). As stated, the claim fails: on a transport failure the
source passes the thrown value as the `body` argument, so a thrown value
matching the Structured Server Error Body shape is classified by its own
code, not as `NETWORK_ERROR`. Amended claim: when the transport throws a
value that does not match the structured shape (the case for real `fetch`
exceptions), the call rejects with exactly the `ApiError` obtained by
classifying with no status, and that error's code is `NETWORK_ERROR` with
an absent status; the model performs a single transport call per request,
so no retry is attempted. -/
theorem request_transport_failure (e : Value) (h : isServerErrorShape e = false) :
    request (Transport.throws e)
        = Except.error (toApiError none e (some networkFallbackMessage))
      ∧ rejectCode (request (Transport.throws e)) = some "NETWORK_ERROR"
      ∧ rejectStatus (request (Transport.throws e)) = some none := by
  refine ⟨rfl, ?_, ?_⟩ <;>
    simp [request, rejectCode, rejectStatus, toApiError_none_of_not_shape e _ h]

/-- Witness for C4's theorem: a transport throwing a plain string rejects
with `NETWORK_ERROR` and no status. -/
theorem request_transport_failure_witness :
    request (Transport.throws (Value.str "TypeError: Failed to fetch"))
        = Except.error (toApiError none (Value.str "TypeError: Failed to fetch")
            (some networkFallbackMessage))
      ∧ rejectCode (request (Transport.throws (Value.str "TypeError: Failed to fetch")))
          = some "NETWORK_ERROR"
      ∧ rejectStatus (request (Transport.throws (Value.str "TypeError: Failed to fetch")))
          = some none :=
  request_transport_failure (Value.str "TypeError: Failed to fetch") (by decide)

/-- Counterexample to C4 as stated: a transport that throws the value
`{ error: { code: "FORBIDDEN" } }` makes the call reject with code
`FORBIDDEN`, not `NETWORK_ERROR`. -/
theorem request_transport_failure_cex :
    rejectCode (request (Transport.throws
        (Value.obj [("error", Value.obj [("code", Value.str "FORBIDDEN")])])))
      = some "FORBIDDEN"
    ∧ "FORBIDDEN" ≠ "NETWORK_ERROR" := by decide

/-- C5 (confirmed). Every execution of `request` that obtains a response
either rejects — when the status is outside 2xx — with exactly the
`ApiError` the normalizer produces from the status, the decoded body and
the generic fallback message, or — when the status is 2xx — resolves with
the decoded body; no other outcome exists. -/
theorem request_response_outcome (r : Response) :
    (resOk r.status = false →
        request (Transport.responds r)
          = Except.error (toApiError (some r.status) (decodeBody r)
              (some serverFallbackMessage)))
      ∧ (resOk r.status = true →
        request (Transport.responds r) = Except.ok (decodeBody r)) := by
  constructor <;> intro h <;> simp [request, h]

/-- Witness for C5's theorem: a 404 with a text body rejects with the
normalized error; a 200 resolves with the decoded body. -/
theorem request_response_outcome_witness :
    request (Transport.responds ⟨404, some "text/plain", none, some "nope"⟩)
        = Except.error (toApiError (some 404) (Value.str "nope")
            (some serverFallbackMessage))
      ∧ request (Transport.responds ⟨200, some "text/plain", none, some "hi"⟩)
        = Except.ok (Value.str "hi") :=
  ⟨(request_response_outcome ⟨404, some "text/plain", none, some "nope"⟩).1 (by decide),
   (request_response_outcome ⟨200, some "text/plain", none, some "hi"⟩).2 (by decide)⟩

/-- C8 (confirmed). A 2xx response whose body cannot be decoded — a JSON
content type whose parse fails, or a non-JSON content type whose text read
fails — resolves successfully with `null`; the decoding failure is never
raised as an error. -/
theorem request_success_decode_failure (r : Response)
    (hok : resOk r.status = true)
    (hfail : (strIncludes (r.contentType.getD "") "application/json" = true
                ∧ r.jsonResult = none)
           ∨ (strIncludes (r.contentType.getD "") "application/json" = false
                ∧ r.textResult = none)) :
    request (Transport.responds r) = Except.ok Value.null := by
  rcases hfail with ⟨h1, h2⟩ | ⟨h1, h2⟩ <;>
    simp [request, decodeBody, hok, h1, h2]

/-- Witness for C8's theorem: HTTP 200 with a non-JSON content type and a
failing body read still resolves with `null`. -/
theorem request_success_decode_failure_witness :
    request (Transport.responds ⟨200, some "text/html", none, none⟩)
      = Except.ok Value.null :=
  request_success_decode_failure ⟨200, some "text/html", none, none⟩
    (by decide) (Or.inr ⟨by decide, rfl⟩)

/-- C6 (confirmed). With a non-structured body and a numeric status, the
returned code follows the fixed table (400, 401, 403, 404, 410, the ≥ 500
band, and `UNKNOWN_ERROR` for everything else), the message is the fallback
message or the generic `"ERROR"`, the status is echoed, and the details are
the raw body. -/
theorem toApiError_status_mapping (s : Int) (body : Value) (fb : Option String)
    (h : isServerErrorShape body = false) :
    (toApiError (some s) body fb).code =
        (if s = 400 then "VALIDATION_ERROR"
         else if s = 401 then "UNAUTHORIZED"
         else if s = 403 then "FORBIDDEN"
         else if s = 404 then "NOT_FOUND"
         else if s = 410 then "EXPIRED"
         else if s ≥ 500 then "SERVER_ERROR"
         else "UNKNOWN_ERROR")
      ∧ (toApiError (some s) body fb).message = Value.str (fb.getD "ERROR")
      ∧ (toApiError (some s) body fb).status = some s
      ∧ (toApiError (some s) body fb).details = body := by
  rw [toApiError_some_of_not_shape s body fb h]
  exact ⟨rfl, rfl, rfl, rfl⟩

/-- Witness for C6's theorem: status 502 with a text body maps to
`SERVER_ERROR`. -/
theorem toApiError_status_mapping_witness :
    (toApiError (some 502) (Value.str "bad gateway") none).code = "SERVER_ERROR"
      ∧ (toApiError (some 502) (Value.str "bad gateway") none).message
          = Value.str "ERROR" := by
  have h := toApiError_status_mapping 502 (Value.str "bad gateway") none (by decide)
  refine ⟨?_, h.2.1⟩
  rw [h.1]
  decide

/-- C7 (confirmed). For every fallback message, classifying the body
`{ error: { code: "PURCHASE_REQUIRED" } }` with status 403 returns code
`PURCHASE_REQUIRED`: the structured-body code beats the status-derived
`FORBIDDEN`. -/
theorem toApiError_purchase_required_over_403 (fb : Option String) :
    (toApiError (some 403)
      (Value.obj [("error", Value.obj [("code", Value.str "PURCHASE_REQUIRED")])])
      fb).code = "PURCHASE_REQUIRED" := by
  cases fb <;> rfl

/-- C10 (confirmed). With the base-URL environment variable unset, the
module-load check only emits a warning (it cannot fail), and every request
URL is the literal string `"undefined"` concatenated with the path. -/
theorem baseUrl_unset_warning_and_url (p : String) :
    clientStartup none = Except.ok true
      ∧ requestUrl none p = "undefined" ++ p :=
  ⟨rfl, rfl⟩

/-- The parameter map from the spec's query-builder round trip. -/
def exampleQuery : List (String × Value) :=
  [("q", Value.str "a b"),
   ("tags", Value.arr [Value.str "x", Value.str "y"]),
   ("page", Value.undefined)]

/-- C9 (corrected). As stated, the claim fails only in its encoding clause:
`URLSearchParams` serializes with `application/x-www-form-urlencoded`, which
turns a space into `+`, not into a percent escape. Amended claim: for every
parameter map (unique keys, as `Object.entries` of an object yields),
`undefined`/`null` fields produce no pair, array fields produce one repeated
pair per element in array order, every other field produces exactly one
pair; the pairs appear in field order, each serialized as
`encode(key)=encode(value)` under the form-urlencoded encoding (space → `+`,
unsafe bytes percent-escaped) and joined with `&`; an empty pair list yields
the empty string with no `?`, a nonempty one is prefixed with `?`. -/
theorem buildQuery_pairs (params : List (String × Value))
    (h : (params.map Prod.fst).Nodup) :
    buildQuery params =
      if queryPairs params = [] then ""
      else "?" ++ joinAmp ((queryPairs params).map
        (fun kv => formUrlEncode kv.1 ++ "=" ++ formUrlEncode kv.2)) := by
  unfold buildQuery
  rw [foldl_buildQueryStep params [] (by simp) h]
  simp only [List.nil_append]
  cases hq : queryPairs params with
  | nil => simp [spToString, joinAmp]
  | cons p rest =>
    rw [if_neg (spToString_cons_ne p rest), if_neg (by simp)]
    rfl

/-- Witness for C9's theorem at the spec's round-trip example
`{ q: "a b", tags: ["x","y"], page: undefined }`: the space is encoded,
`tags` repeats in order, `page` is dropped, and the empty map gives the
empty string. -/
theorem buildQuery_pairs_witness :
    buildQuery exampleQuery =
        (if queryPairs exampleQuery = [] then ""
         else "?" ++ joinAmp ((queryPairs exampleQuery).map
           (fun kv => formUrlEncode kv.1 ++ "=" ++ formUrlEncode kv.2)))
      ∧ buildQuery exampleQuery = "?q=a+b&tags=x&tags=y"
      ∧ buildQuery [] = "" :=
  ⟨buildQuery_pairs exampleQuery (by decide), by decide, by decide⟩

/-- Counterexample to C9 as stated: the value `"a b"` is serialized as
`a+b`, while its percent-encoding is `a%20b`, so the produced pair is not
percent-encoded. -/
theorem buildQuery_space_not_percent_cex :
    buildQuery [("q", Value.str "a b")] = "?q=a+b"
      ∧ "?q=" ++ percentEncode "a b" = "?q=a%20b"
      ∧ "?q=a+b" ≠ "?q=a%20b" := by decide
